import Mathlib

/-!
Verification development for the Margsathi backend routing service.

The definitions below are a shallow embedding of the Python sources under
`backend/`: the provider configuration (`backend/config.py`), the router
manager fallback loop (`backend/services/router_manager.py`), the
MapMyIndia client (`backend/services/mapmyindia.py`), and the routing
endpoints (`backend/routes/routing.py`).  Machine floats are modelled as
rationals (for the exact branching/multiplier logic) or reals (for the
transcendental haversine formula); environment-variable credentials are
modelled by their truthiness as booleans.
-/

namespace Margsathi

/-- The `RoutingProvider` enum of `backend/config.py`, in declaration
(enumeration) order: MAPBOX, GOOGLE_MAPS, MAPMYINDIA, OSRM. -/
inductive RoutingProvider where
  | MAPBOX
  | GOOGLE_MAPS
  | MAPMYINDIA
  | OSRM
deriving DecidableEq, Fintype, Repr

/-- Python iterates `for provider in RoutingProvider` in declaration order. -/
def providerEnumOrder : List RoutingProvider :=
  [.MAPBOX, .GOOGLE_MAPS, .MAPMYINDIA, .OSRM]

/-- The credential state of `RoutingConfig.__init__` (`backend/config.py`):
each environment-supplied key is modelled by its truthiness (`bool(key)`),
plus the validated preferred provider. -/
structure RoutingConfig where
  mapbox_api_key : Bool
  google_maps_api_key : Bool
  mapmyindia_api_key : Bool
  mapmyindia_client_id : Bool
  mapmyindia_client_secret : Bool
  preferred_provider : RoutingProvider
deriving DecidableEq, Fintype, Repr

/-- `RoutingConfig.is_provider_configured` (`backend/config.py`, lines 64-76). -/
def is_provider_configured (c : RoutingConfig) : RoutingProvider → Bool
  | .MAPBOX => c.mapbox_api_key
  | .GOOGLE_MAPS => c.google_maps_api_key
  | .MAPMYINDIA =>
      c.mapmyindia_api_key || (c.mapmyindia_client_id && c.mapmyindia_client_secret)
  | .OSRM => true

/-- `RoutingConfig.get_available_providers` (`backend/config.py`, lines 78-83). -/
def get_available_providers (c : RoutingConfig) : List RoutingProvider :=
  providerEnumOrder.filter (fun p => is_provider_configured c p)

/-- `RoutingConfig.get_fallback_chain` (`backend/config.py`, lines 85-109):
start with the preferred provider if configured, append the remaining
configured providers in enumeration order, then append OSRM unless it is
already present. -/
def get_fallback_chain (c : RoutingConfig) : List RoutingProvider :=
  let chain :=
    if is_provider_configured c c.preferred_provider then [c.preferred_provider] else []
  let chain :=
    chain ++ providerEnumOrder.filter
      (fun p => p ≠ c.preferred_provider && is_provider_configured c p)
  if RoutingProvider.OSRM ∈ chain then chain else chain ++ [RoutingProvider.OSRM]

/-! ## RouterManager (`backend/services/router_manager.py`) -/

/-- Outcome of one `client.get_route(...)` call inside the fallback loop of
`RouterManager.get_route` (lines 77-97): the client returns a truthy result
dict, returns `None` (no route / unconfigured), or raises an exception
(caught by the `except` clause). -/
inductive ProviderOutcome (α : Type) where
  | success (result : α)
  | noRoute
  | raised
deriving DecidableEq, Repr

/-- A provider result stamped with `_provider_used` (line 89). -/
structure TaggedResult (α : Type) where
  result : α
  provider_used : RoutingProvider
deriving DecidableEq, Repr

/-- The fallback loop of `RouterManager.get_route` (lines 77-101): try each
provider in order, return the first truthy result stamped with its provider;
on `None` or an exception, continue; return `None` when exhausted.  The
total `Option` return type reflects that the loop catches every exception
and never raises. -/
def tryProviders {α : Type} (behave : RoutingProvider → ProviderOutcome α) :
    List RoutingProvider → Option (TaggedResult α)
  | [] => none
  | p :: rest =>
    match behave p with
    | .success r => some ⟨r, p⟩
    | .noRoute => tryProviders behave rest
    | .raised => tryProviders behave rest

/-- The trace of providers on which the loop invokes `client.get_route`,
in order: every provider up to and including the first success. -/
def invokedProviders {α : Type} (behave : RoutingProvider → ProviderOutcome α) :
    List RoutingProvider → List RoutingProvider
  | [] => []
  | p :: rest =>
    match behave p with
    | .success _ => [p]
    | .noRoute => p :: invokedProviders behave rest
    | .raised => p :: invokedProviders behave rest

/-- The effective provider order of `RouterManager.get_route` (lines 67-74):
a configured preferred override goes first, followed by the fallback chain
minus that override; otherwise the precomputed fallback chain. -/
def provider_order (c : RoutingConfig) (preferred : Option RoutingProvider) :
    List RoutingProvider :=
  match preferred with
  | some p =>
      if is_provider_configured c p then
        p :: (get_fallback_chain c).filter (fun q => q ≠ p)
      else get_fallback_chain c
  | none => get_fallback_chain c

/-- `RouterManager.get_route` (lines 44-101): the fallback loop run over the
effective provider order. -/
def RouterManager_get_route {α : Type} (c : RoutingConfig)
    (behave : RoutingProvider → ProviderOutcome α)
    (preferred : Option RoutingProvider) : Option (TaggedResult α) :=
  tryProviders behave (provider_order c preferred)

/-! ## Python string primitives used by `backend/routes/routing.py` -/

/-- Python `str.lower()` (ASCII fragment, which covers every string the
routing module compares). -/
def pyLower (s : String) : String :=
  ⟨s.toList.map Char.toLower⟩

/-- Python `str.strip()`: drop leading and trailing whitespace. -/
def pyStrip (s : String) : String :=
  ⟨((s.toList.dropWhile Char.isWhitespace).reverse.dropWhile Char.isWhitespace).reverse⟩

/-- Whether `pat` occurs at the start of `hay` (`list` version). -/
def listStartsWith : List Char → List Char → Bool
  | [], _ => true
  | _ :: _, [] => false
  | a :: as, b :: bs => a = b && listStartsWith as bs

/-- Python substring containment `pat in hay` on character lists. -/
def listContainsSub (pat : List Char) : List Char → Bool
  | [] => pat.isEmpty
  | c :: rest => listStartsWith pat (c :: rest) || listContainsSub pat rest

/-- Python `pat in hay` for strings (substring containment). -/
def strContainsSub (hay pat : String) : Bool :=
  listContainsSub pat.toList hay.toList

/-- Python `any(x in s for x in xs)`. -/
def anyKeywordIn (s : String) (xs : List String) : Bool :=
  xs.any (fun x => strContainsSub s x)

/-- Python `str.title()` (ASCII fragment): a letter is uppercased when it
follows a non-letter, lowercased otherwise. -/
def pyTitleGo : Bool → List Char → List Char
  | _, [] => []
  | prevAlpha, c :: rest =>
      let c' := if c.isAlpha then (if prevAlpha then c.toLower else c.toUpper) else c
      c' :: pyTitleGo c.isAlpha rest

/-- Python `str.title()` on strings. -/
def pyTitle (s : String) : String :=
  ⟨pyTitleGo false s.toList⟩

/-! ## Event multipliers (`backend/routes/routing.py`) -/

/-- The event-multiplier block of `suggest_text_route` (lines 543-554):
when the event string is truthy (non-empty), the haversine distance is
multiplied by 1.2 / 1.3 / 1.15 according to which keyword group first
matches the normalized event text; otherwise it is left unchanged.
Multipliers are exact decimals, written as rationals. -/
def suggest_apply_event (distance_m : ℚ) (event : String) : ℚ :=
  if event ≠ "" then
    if anyKeywordIn (pyStrip (pyLower event)) ["rally", "protest", "parade", "political"] then
      distance_m * (12/10)
    else if anyKeywordIn (pyStrip (pyLower event)) ["closure", "accident", "construction"] then
      distance_m * (13/10)
    else if anyKeywordIn (pyStrip (pyLower event)) ["concert", "sports", "event"] then
      distance_m * (23/20)
    else distance_m
  else distance_m

/-- The multiplier implicit in `suggest_apply_event`, factored out. -/
def suggest_event_factor (event : String) : ℚ :=
  if event ≠ "" then
    if anyKeywordIn (pyStrip (pyLower event)) ["rally", "protest", "parade", "political"] then
      12/10
    else if anyKeywordIn (pyStrip (pyLower event)) ["closure", "accident", "construction"] then
      13/10
    else if anyKeywordIn (pyStrip (pyLower event)) ["concert", "sports", "event"] then
      23/20
    else 1
  else 1

/-- Whether the event text matches any keyword group of `suggest_text_route`. -/
def suggest_event_recognized (event : String) : Bool :=
  anyKeywordIn (pyStrip (pyLower event)) ["rally", "protest", "parade", "political"]
  || anyKeywordIn (pyStrip (pyLower event)) ["closure", "accident", "construction"]
  || anyKeywordIn (pyStrip (pyLower event)) ["concert", "sports", "event"]

/-- The `factor` computed by `plan_alternate_route` (lines 243-268): exact
set membership of the normalized event type, with a 1.05 generic buffer for
anything unrecognized. -/
def alternate_event_factor (event_type : String) : ℚ :=
  if ["road_closure", "accident", "construction"].contains (pyStrip (pyLower event_type)) then
    13/10
  else if ["protest", "rally", "parade"].contains (pyStrip (pyLower event_type)) then
    12/10
  else if ["concert", "sports", "event"].contains (pyStrip (pyLower event_type)) then
    23/20
  else 21/20

/-- Whether the event type is in one of the three recognized sets of
`plan_alternate_route`. -/
def alternate_event_recognized (event_type : String) : Bool :=
  ["road_closure", "accident", "construction"].contains (pyStrip (pyLower event_type))
  || ["protest", "rally", "parade"].contains (pyStrip (pyLower event_type))
  || ["concert", "sports", "event"].contains (pyStrip (pyLower event_type))

/-! ## Gazetteer and `_geocode_location` (`backend/routes/routing.py`) -/

/-- An entry of the geocoding result shape `{lat, lon, display}`.
Coordinates are exact decimal literals, written as rationals. -/
structure GeoPoint where
  lat : ℚ
  lon : ℚ
  display : String
deriving DecidableEq, Repr

/-- `LOCATION_DB` (lines 355-371), in source order (Python dicts preserve
insertion order, which the partial-match loop iterates). -/
def LOCATION_DB : List (String × GeoPoint) :=
  [("btm layout", ⟨12.9166, 77.6101, "BTM Layout"⟩),
   ("mg road", ⟨12.9716, 77.5946, "MG Road"⟩),
   ("jp nagar", ⟨12.9067, 77.5858, "JP Nagar"⟩),
   ("richmond road", ⟨12.9500, 77.6000, "Richmond Road"⟩),
   ("lalbagh", ⟨12.9507, 77.5848, "Lalbagh"⟩),
   ("indiranagar", ⟨12.9784, 77.6408, "Indiranagar"⟩),
   ("koramangala", ⟨12.9352, 77.6245, "Koramangala"⟩),
   ("whitefield", ⟨12.9698, 77.7499, "Whitefield"⟩),
   ("marathahalli", ⟨12.9592, 77.6974, "Marathahalli"⟩),
   ("hebbal", ⟨13.0358, 77.5970, "Hebbal"⟩),
   ("electronic city", ⟨12.8456, 77.6633, "Electronic City"⟩),
   ("cubbon park", ⟨12.9716, 77.5946, "Cubbon Park"⟩),
   ("ulsoor", ⟨12.9784, 77.6408, "Ulsoor"⟩),
   ("malleshwaram", ⟨13.0050, 77.5610, "Malleshwaram"⟩),
   ("rajajinagar", ⟨12.9784, 77.5510, "Rajajinagar"⟩)]

/-- The direct dictionary lookup `LOCATION_DB[normalized]` guarded by
`normalized in LOCATION_DB` (lines 387-389). -/
def dbLookupExact (normalized : String) : Option GeoPoint :=
  (LOCATION_DB.find? (fun kv => kv.1 == normalized)).map (fun kv => kv.2)

/-- The partial-match loop (lines 392-395): first entry whose key contains
the normalized input or is contained in it. -/
def dbLookupPartial (normalized : String) : Option GeoPoint :=
  (LOCATION_DB.find? (fun kv =>
    strContainsSub kv.1 normalized || strContainsSub normalized kv.1)).map (fun kv => kv.2)

/-- Outcome of the remote `mapbox_geocoder.geocode` call (lines 400-412):
a result dict, `None`, or an exception (caught by the `except` clause). -/
inductive GeocodeOutcome where
  | found (r : GeoPoint)
  | noResult
  | raised
deriving DecidableEq, Repr

/-- The fixed Bangalore-center fallback of `_geocode_location` (line 418). -/
def bangaloreDefault (location_name : String) : GeoPoint :=
  ⟨12.9716, 77.5946, pyTitle location_name⟩

/-- `_geocode_location` (lines 374-418): exact gazetteer match, else
partial gazetteer match, else (when configured) the remote geocoder with
every failure caught, else the fixed default.  Total: no tier raises past
the resolver. -/
def geocode_location (geocoder_configured : Bool) (geocode : GeocodeOutcome)
    (location_name : String) : GeoPoint :=
  match dbLookupExact (pyStrip (pyLower location_name)) with
  | some v => v
  | none =>
    match dbLookupPartial (pyStrip (pyLower location_name)) with
    | some v => v
    | none =>
      if geocoder_configured then
        match geocode with
        | .found r => r
        | .noResult => bangaloreDefault location_name
        | .raised => bangaloreDefault location_name
      else bangaloreDefault location_name

/-! ## Provider-route extraction in `suggest_text_route` (lines 577-592) -/

/-- One entry of a provider response's `routes` list; `distance` /
`duration` are `Option` because the code reads them with
`route.get("distance", distance_m)` -- absent keys fall back to the local
estimate. -/
structure ProviderRoute where
  distance : Option ℚ
  duration : Option ℚ
  geometry : String
deriving DecidableEq, Repr

/-- The distance returned by `suggest_text_route` after the provider call
(lines 577-583): `none` models a falsy/raising router response, `some []`
a response with no routes; otherwise the first route's `distance` key, the
event-multiplied estimate when the key is absent. -/
def suggest_final_distance (distance_m : ℚ) (resp : Option (List ProviderRoute)) : ℚ :=
  match resp with
  | some (route :: _) => route.distance.getD distance_m
  | _ => distance_m

/-- Same extraction for the duration (line 583). -/
def suggest_final_duration (duration_s : ℚ) (resp : Option (List ProviderRoute)) : ℚ :=
  match resp with
  | some (route :: _) => route.duration.getD duration_s
  | _ => duration_s

/-! ## MapMyIndia client (`backend/services/mapmyindia.py`) -/

/-- Truthiness of the three MapMyIndia credentials read in
`MapMyIndiaClient.__init__`. -/
structure MMICreds where
  api_key : Bool
  client_id : Bool
  client_secret : Bool
deriving DecidableEq, Fintype, Repr

/-- `MapMyIndiaClient.is_configured`. -/
def mmi_is_configured (c : MMICreds) : Bool :=
  c.api_key || (c.client_id && c.client_secret)

/-- `MapMyIndiaClient._get_token`: returns `None` when an API key is
present or the id/secret pair is incomplete; otherwise the outcome of the
token request (modelled as `tokenOutcome`). -/
def mmi_get_token (c : MMICreds) (tokenOutcome : Option String) : Option String :=
  if c.api_key then none
  else if !(c.client_id && c.client_secret) then none
  else tokenOutcome

/-- Observable action of `MapMyIndiaClient.get_route` (lines 74-115):
either it returns `None` without issuing a routing request, or it issues
the `route_adv` routing request. -/
inductive MMIStep where
  | returnedNone
  | issuedRoutingRequest
deriving DecidableEq, Repr

/-- The control flow of `MapMyIndiaClient.get_route` up to the point where
a routing request would be issued: unconfigured clients return `None`; an
API key leads to the `route_adv` request; the OAuth-only branch returns
`None` whether or not a token was obtained (`return None  # Fallback to
mock if no direct API key for v1`). -/
def mmi_get_route_step (c : MMICreds) (tokenOutcome : Option String) : MMIStep :=
  if !(mmi_is_configured c) then .returnedNone
  else if c.api_key then .issuedRoutingRequest
  else
    match mmi_get_token c tokenOutcome with
    | none => .returnedNone
    | some _ => .returnedNone

/-! ## Haversine distance (`backend/routes/routing.py`, lines 89-104) -/

noncomputable section

/-- Python's `math.radians`. -/
def pyRadians (x : ℝ) : ℝ := x * (Real.pi / 180)

/-- The intermediate `a` of `_haversine_distance_m`:
`sin(d_lat/2)**2 + cos(radians(lat1))*cos(radians(lat2))*sin(d_lon/2)**2`. -/
def haversine_a (lat1 lon1 lat2 lon2 : ℝ) : ℝ :=
  Real.sin (pyRadians (lat2 - lat1) / 2) ^ 2
    + Real.cos (pyRadians lat1) * Real.cos (pyRadians lat2)
      * Real.sin (pyRadians (lon2 - lon1) / 2) ^ 2

/-- The central angle `c = 2 * asin(sqrt(a))` computed by
`_haversine_distance_m`: the angular separation of the two points as the
haversine method measures it. -/
def haversine_central_angle (lat1 lon1 lat2 lon2 : ℝ) : ℝ :=
  2 * Real.arcsin (Real.sqrt (haversine_a lat1 lon1 lat2 lon2))

/-- `_haversine_distance_m` (lines 89-104): `r * c` with
`r = 6371000` meters, floats idealized as reals. -/
def haversine_distance_m (lat1 lon1 lat2 lon2 : ℝ) : ℝ :=
  6371000 * haversine_central_angle lat1 lon1 lat2 lon2

/-- `_estimate_speed_mps` (lines 107-114). -/
def estimate_speed_mps : String → ℝ
  | "walk" => 1.4
  | "bike" => 4.1
  | "transit" => 8.3
  | _ => 13.9

/-! ## `plan_route` (`backend/routes/routing.py`, lines 128-218) -/

/-- A Python runtime error escaping a handler. -/
inductive PyError where
  | nameError (name : String)
deriving DecidableEq, Repr

/-- The module-level names bound in `backend/routes/routing.py`: its
imports, module-level assignments and definitions.  `mmi_client` is not
among them -- that name is only bound in `backend/routes/events.py`. -/
def routingModuleGlobals : List String :=
  ["radians", "cos", "sin", "asin", "sqrt", "List", "Literal", "Optional",
   "Dict", "Any", "APIRouter", "HTTPException", "BaseModel", "Field",
   "logging", "router_manager", "OSRMClient", "MapboxGeocoder",
   "routing_config", "logger", "osrm_client", "mapbox_geocoder", "router",
   "TravelMode", "Coordinate", "RouteLeg", "RouteSummary", "RouteRequest",
   "RouteResponse", "AlternateRouteRequest", "AlternateRouteResponse",
   "_haversine_distance_m", "_estimate_speed_mps", "_estimate_co2_kg",
   "plan_route", "plan_alternate_route", "TextRouteRequest",
   "TextRouteResponse", "LOCATION_DB", "_geocode_location",
   "_generate_waypoints", "suggest_text_route", "recalculate_route",
   "get_provider_status"]

/-- A coordinate pair (floats idealized as reals; the web layer enforces
the range bounds). -/
structure Coord where
  lat : ℝ
  lon : ℝ

/-- One entry of a MapMyIndia response's `routes` list as parsed by
`plan_route` (lines 148-154). -/
structure MMIRoute where
  distance : ℝ
  duration : ℝ
  geometry : String

/-- The summary data of the `RouteResponse` built by `plan_route`, plus
the `debug.implementation` tag (display rounding of the floats omitted). -/
structure PlanSummary where
  distance_meters : ℝ
  duration_seconds : ℝ
  implementation : String

/-- `plan_route` (lines 128-218).  Its first statement evaluates
`mmi_client.get_route(...)`; under Python name resolution an unbound
global raises `NameError` before anything else runs, so the function is
modelled against the module's global names.  With the name bound it would
use the first MapMyIndia route when present and otherwise fall back to the
haversine estimate. -/
def plan_route (globals : List String) (mmi_resp : Option (List MMIRoute))
    (origin destination : Coord) (mode : String) : Except PyError PlanSummary :=
  if "mmi_client" ∈ globals then
    match mmi_resp with
    | some (route :: _) => .ok ⟨route.distance, route.duration, "mapmyindia_live"⟩
    | _ =>
      .ok ⟨haversine_distance_m origin.lat origin.lon destination.lat destination.lon,
        (if estimate_speed_mps mode > 0 then
          haversine_distance_m origin.lat origin.lon destination.lat destination.lon
            / estimate_speed_mps mode
        else 0),
        "haversine_stub"⟩
  else .error (.nameError "mmi_client")

end

/-! ## Theorems -/

/-- Helper: a failing provider (no route, or an exception caught by the
loop) is skipped. -/
theorem tryProviders_cons_fail {α : Type} (behave : RoutingProvider → ProviderOutcome α)
    (p : RoutingProvider) (rest : List RoutingProvider)
    (h : behave p = .noRoute ∨ behave p = .raised) :
    tryProviders behave (p :: rest) = tryProviders behave rest := by
  rcases h with h | h <;> simp [tryProviders, h]

/-- Helper: a failing provider is still invoked before the loop advances. -/
theorem invokedProviders_cons_fail {α : Type} (behave : RoutingProvider → ProviderOutcome α)
    (p : RoutingProvider) (rest : List RoutingProvider)
    (h : behave p = .noRoute ∨ behave p = .raised) :
    invokedProviders behave (p :: rest) = p :: invokedProviders behave rest := by
  rcases h with h | h <;> simp [invokedProviders, h]

/-- Helper: a failing block of providers is skipped wholesale. -/
theorem tryProviders_prepend_fail {α : Type} (behave : RoutingProvider → ProviderOutcome α) :
    ∀ (pre rest : List RoutingProvider),
      (∀ q ∈ pre, behave q = .noRoute ∨ behave q = .raised) →
      tryProviders behave (pre ++ rest) = tryProviders behave rest
  | [], _, _ => rfl
  | q :: pre, rest, h => by
      rw [List.cons_append, tryProviders_cons_fail behave q _ (h q (by simp)),
        tryProviders_prepend_fail behave pre rest (fun x hx => h x (by simp [hx]))]

/-- Helper: a failing block of providers is invoked in order, then the
loop continues. -/
theorem invokedProviders_prepend_fail {α : Type}
    (behave : RoutingProvider → ProviderOutcome α) :
    ∀ (pre rest : List RoutingProvider),
      (∀ q ∈ pre, behave q = .noRoute ∨ behave q = .raised) →
      invokedProviders behave (pre ++ rest) = pre ++ invokedProviders behave rest
  | [], _, _ => rfl
  | q :: pre, rest, h => by
      rw [List.cons_append, invokedProviders_cons_fail behave q _ (h q (by simp)),
        invokedProviders_prepend_fail behave pre rest (fun x hx => h x (by simp [hx])),
        List.cons_append]

set_option maxRecDepth 8000 in
/-- Helper: every configured provider is somewhere in the fallback chain. -/
theorem configured_mem_chain : ∀ (c : RoutingConfig) (p : RoutingProvider),
    is_provider_configured c p = true → p ∈ get_fallback_chain c := by decide

set_option maxRecDepth 8000 in
/-- C1 (amended): for every credential configuration, the fallback chain
contains OSRM exactly once; it is at the final position whenever the
preferred provider is not OSRM; when the preferred provider is OSRM (the
default), OSRM sits at the first position instead. -/
theorem C1_fallback_chain_osrm_once (c : RoutingConfig) :
    (get_fallback_chain c).count RoutingProvider.OSRM = 1
    ∧ (c.preferred_provider ≠ RoutingProvider.OSRM →
        (get_fallback_chain c).getLast? = some RoutingProvider.OSRM)
    ∧ (c.preferred_provider = RoutingProvider.OSRM →
        (get_fallback_chain c).head? = some RoutingProvider.OSRM) := by
  revert c; decide

/-- C1 witness: with only a Mapbox key and Mapbox preferred, OSRM is last. -/
theorem C1_witness :
    (get_fallback_chain ⟨true, false, false, false, false, .MAPBOX⟩).getLast?
      = some RoutingProvider.OSRM :=
  (C1_fallback_chain_osrm_once ⟨true, false, false, false, false, .MAPBOX⟩).2.1 (by decide)

/-- C1 counterexample: with a Mapbox key configured and the preferred
provider left at its default (OSRM), the chain is `[osrm, mapbox]` -- OSRM
appears exactly once but at the first position, not the final one. -/
theorem C1_counterexample :
    (get_fallback_chain ⟨true, false, false, false, false, .OSRM⟩).count
        RoutingProvider.OSRM = 1
    ∧ (get_fallback_chain ⟨true, false, false, false, false, .OSRM⟩).getLast?
        = some RoutingProvider.MAPBOX
    ∧ RoutingProvider.MAPBOX ≠ RoutingProvider.OSRM := by decide

set_option maxRecDepth 8000 in
/-- C2: over the fallback loop of `RouterManager.get_route` (`tryProviders`
applied to the effective `provider_order`, which is always duplicate-free):
when every provider of a prefix fails (no route or an exception) and the
next provider succeeds, the loop returns that provider's result stamped
with it as `provider_used`; the invocation trace is exactly the failing
prefix followed by the succeeding provider, each invoked exactly once, and
no later provider is invoked. -/
theorem C2_first_success_semantics :
    (∀ (c : RoutingConfig) (pref : Option RoutingProvider), (provider_order c pref).Nodup)
    ∧ ∀ (α : Type) (behave : RoutingProvider → ProviderOutcome α)
        (pre post : List RoutingProvider) (p : RoutingProvider) (r : α),
        (∀ q ∈ pre, behave q = .noRoute ∨ behave q = .raised) →
        behave p = .success r →
        (pre ++ p :: post).Nodup →
        tryProviders behave (pre ++ p :: post) = some ⟨r, p⟩
        ∧ invokedProviders behave (pre ++ p :: post) = pre ++ [p]
        ∧ (∀ q ∈ pre ++ [p], (invokedProviders behave (pre ++ p :: post)).count q = 1)
        ∧ (∀ q ∈ post, q ∉ invokedProviders behave (pre ++ p :: post)) := by
  constructor
  · decide
  · intro α behave pre post p r hpre hp hnodup
    have htry : tryProviders behave (pre ++ p :: post) = some ⟨r, p⟩ := by
      rw [tryProviders_prepend_fail behave pre _ hpre]
      simp [tryProviders, hp]
    have hinv : invokedProviders behave (pre ++ p :: post) = pre ++ [p] := by
      rw [invokedProviders_prepend_fail behave pre _ hpre]
      simp [invokedProviders, hp]
    have hsplit : pre ++ p :: post = (pre ++ [p]) ++ post := by simp
    rw [hsplit] at hnodup
    have hnd1 : (pre ++ [p]).Nodup := (List.nodup_append.mp hnodup).1
    have hdisj : (pre ++ [p]).Disjoint post := (List.nodup_append.mp hnodup).2.2
    refine ⟨htry, hinv, ?_, ?_⟩
    · intro q hq
      rw [hinv]
      exact List.count_eq_one_of_mem hnd1 hq
    · intro q hq
      rw [hinv]
      intro hmem
      exact hdisj hmem hq

/-- A concrete behaviour for the C2 witness: Mapbox returns no route,
Google raises, MapMyIndia succeeds, OSRM would succeed but is never
reached. -/
def c2DemoBehave : RoutingProvider → ProviderOutcome Nat
  | .MAPBOX => .noRoute
  | .GOOGLE_MAPS => .raised
  | .MAPMYINDIA => .success 7
  | .OSRM => .success 9

/-- C2 witness: two failing providers then a success. -/
theorem C2_witness :
    tryProviders c2DemoBehave ([.MAPBOX, .GOOGLE_MAPS] ++ .MAPMYINDIA :: [.OSRM])
        = some ⟨7, .MAPMYINDIA⟩
    ∧ invokedProviders c2DemoBehave ([.MAPBOX, .GOOGLE_MAPS] ++ .MAPMYINDIA :: [.OSRM])
        = [.MAPBOX, .GOOGLE_MAPS] ++ [.MAPMYINDIA] :=
  ⟨(C2_first_success_semantics.2 Nat c2DemoBehave [.MAPBOX, .GOOGLE_MAPS] [.OSRM]
      .MAPMYINDIA 7 (by decide) (by decide) (by decide)).1,
   (C2_first_success_semantics.2 Nat c2DemoBehave [.MAPBOX, .GOOGLE_MAPS] [.OSRM]
      .MAPMYINDIA 7 (by decide) (by decide) (by decide)).2.1⟩

/-- C3: when every provider in the effective order fails (returns no route
or raises), `RouterManager.get_route` returns `None`; its total `Option`
return type reflects that the loop catches every provider exception and
never raises to its caller. -/
theorem C3_exhausted_returns_none :
    ∀ (α : Type) (c : RoutingConfig) (pref : Option RoutingProvider)
      (behave : RoutingProvider → ProviderOutcome α),
      (∀ q ∈ provider_order c pref, behave q = .noRoute ∨ behave q = .raised) →
      RouterManager_get_route c behave pref = none := by
  intro α c pref behave h
  unfold RouterManager_get_route
  have haux : ∀ (l : List RoutingProvider),
      (∀ q ∈ l, behave q = .noRoute ∨ behave q = .raised) →
      tryProviders behave l = none := by
    intro l
    induction l with
    | nil => intro _; rfl
    | cons q rest ih =>
        intro hl
        rw [tryProviders_cons_fail behave q rest (hl q (by simp))]
        exact ih (fun x hx => hl x (by simp [hx]))
  exact haux _ h

/-- A behaviour where every provider fails, for the C3 witness. -/
def c3DemoBehave : RoutingProvider → ProviderOutcome Unit
  | .MAPBOX => .noRoute
  | .GOOGLE_MAPS => .raised
  | .MAPMYINDIA => .noRoute
  | .OSRM => .raised

/-- C3 witness: no credentials, every provider fails, result is `none`. -/
theorem C3_witness :
    RouterManager_get_route ⟨false, false, false, false, false, .OSRM⟩ c3DemoBehave none
      = none :=
  C3_exhausted_returns_none Unit ⟨false, false, false, false, false, .OSRM⟩ none
    c3DemoBehave (by decide)

set_option maxRecDepth 16000 in
/-- C4 (amended): the fallback chain never has duplicates; the preferred
provider is at the head iff it is configured; provided the preferred
provider is not OSRM, every other configured provider comes before OSRM;
and non-preferred configured providers always appear in enumeration order
relative to each other. -/
theorem C4_fallback_chain_shape (c : RoutingConfig) :
    (get_fallback_chain c).Nodup
    ∧ ((get_fallback_chain c).head? = some c.preferred_provider ↔
        is_provider_configured c c.preferred_provider = true)
    ∧ (c.preferred_provider ≠ RoutingProvider.OSRM →
        ∀ p : RoutingProvider, is_provider_configured c p = true →
          p ≠ c.preferred_provider → p ≠ RoutingProvider.OSRM →
          (get_fallback_chain c).indexOf p
            < (get_fallback_chain c).indexOf RoutingProvider.OSRM)
    ∧ (∀ p q : RoutingProvider, p ≠ c.preferred_provider → q ≠ c.preferred_provider →
        is_provider_configured c p = true → is_provider_configured c q = true →
        providerEnumOrder.indexOf p < providerEnumOrder.indexOf q →
        (get_fallback_chain c).indexOf p < (get_fallback_chain c).indexOf q) := by
  refine ⟨?_, ?_, ?_, ?_⟩
  · revert c; decide
  · revert c; decide
  · revert c; decide
  · revert c; decide

/-- C4 witness: with Mapbox preferred and Google configured, Google sits
before OSRM in the chain. -/
theorem C4_witness :
    (get_fallback_chain ⟨true, true, false, false, false, .MAPBOX⟩).indexOf
        RoutingProvider.GOOGLE_MAPS
      < (get_fallback_chain ⟨true, true, false, false, false, .MAPBOX⟩).indexOf
        RoutingProvider.OSRM :=
  (C4_fallback_chain_shape ⟨true, true, false, false, false, .MAPBOX⟩).2.2.1 (by decide)
    RoutingProvider.GOOGLE_MAPS (by decide) (by decide) (by decide)

/-- C4 counterexample: with a Google key configured and the preferred
provider left at its default (OSRM), the chain is `[osrm, google]`: the
configured non-reserved provider Google appears after the reserved
no-credential provider, violating clause (d) of the claim. -/
theorem C4_counterexample :
    is_provider_configured ⟨false, true, false, false, false, .OSRM⟩
        RoutingProvider.GOOGLE_MAPS = true
    ∧ RoutingProvider.GOOGLE_MAPS ≠ RoutingProvider.OSRM
    ∧ (get_fallback_chain ⟨false, true, false, false, false, .OSRM⟩).indexOf
          RoutingProvider.OSRM
        < (get_fallback_chain ⟨false, true, false, false, false, .OSRM⟩).indexOf
          RoutingProvider.GOOGLE_MAPS := by decide

/-- C5 (code_bug): `plan_route` evaluates `mmi_client.get_route(...)` as
its first statement, but `mmi_client` is not bound anywhere in
`backend/routes/routing.py` (it lives in `backend/routes/events.py`), so
every request to `/plan` raises `NameError` instead of returning the
documented haversine fallback. -/
theorem C5_plan_route_raises_name_error :
    ∀ (mmi_resp : Option (List MMIRoute)) (origin destination : Coord) (mode : String),
      plan_route routingModuleGlobals mmi_resp origin destination mode
        = .error (.nameError "mmi_client") := by
  intro mmi_resp origin destination mode
  unfold plan_route
  rw [if_neg (by decide : ¬ ("mmi_client" ∈ routingModuleGlobals))]

/-- C6 (amended): both multiplier sites compute `distance' = distance *
factor`; the factor is 1.3 / 1.2 / 1.15 for the recognized categories at
both sites and exceeds 1 there; but a non-empty unrecognized event yields
factor 1.05 only in `plan_alternate_route` -- `suggest_text_route` leaves
the distance unchanged (factor 1) for unrecognized events. -/
theorem C6_event_multiplier_factors :
    (∀ (d : ℚ) (e : String), suggest_apply_event d e = d * suggest_event_factor e)
    ∧ suggest_event_factor "" = 1
    ∧ (∀ e, e ≠ "" → suggest_event_recognized e = true → 1 < suggest_event_factor e)
    ∧ (∀ e, suggest_event_recognized e = false → suggest_event_factor e = 1)
    ∧ (∀ e, 1 < alternate_event_factor e)
    ∧ (∀ e, alternate_event_recognized e = false → alternate_event_factor e = 21/20)
    ∧ suggest_event_factor "road closure" = 13/10
    ∧ suggest_event_factor "protest" = 12/10
    ∧ suggest_event_factor "concert" = 23/20
    ∧ alternate_event_factor "road_closure" = 13/10
    ∧ alternate_event_factor "rally" = 12/10
    ∧ alternate_event_factor "sports" = 23/20
    ∧ (1 : ℚ) < 21/20 := by
  refine ⟨?_, rfl, ?_, ?_, ?_, ?_, rfl, rfl, rfl, rfl, rfl, rfl, by norm_num⟩
  · intro d e
    unfold suggest_apply_event suggest_event_factor
    split_ifs <;> ring
  · intro e hne hrec
    unfold suggest_event_factor
    rw [if_pos hne]
    unfold suggest_event_recognized at hrec
    split_ifs with h1 h2 h3
    · norm_num
    · norm_num
    · norm_num
    · simp only [Bool.or_eq_true] at hrec
      tauto
  · intro e hrec
    simp only [suggest_event_recognized, Bool.or_eq_false_iff] at hrec
    unfold suggest_event_factor
    split_ifs with hne h1 h2 h3 <;> simp_all
  · intro e
    unfold alternate_event_factor
    split_ifs <;> norm_num
  · intro e hrec
    simp only [alternate_event_recognized, Bool.or_eq_false_iff] at hrec
    unfold alternate_event_factor
    split_ifs with h1 h2 h3 <;> simp_all

/-- C6 witness: a recognized event ("rally") gets a factor above 1. -/
theorem C6_witness :
    1 < suggest_event_factor "rally" :=
  C6_event_multiplier_factors.2.2.1 "rally" (by decide) (by decide)

/-- C6 counterexample: "fog" is a non-empty event recognized by no keyword
group, and `suggest_text_route` leaves the distance unchanged (factor 1,
not the claimed 1.05). -/
theorem C6_counterexample :
    "fog" ≠ ""
    ∧ suggest_event_recognized "fog" = false
    ∧ suggest_apply_event 1000 "fog" = 1000
    ∧ suggest_event_factor "fog" = 1
    ∧ ¬ ((1 : ℚ) = 21/20) :=
  ⟨by decide, by decide, by rfl, by rfl, by norm_num⟩

/-- C7: location resolution returns the stored gazetteer entry on an exact
(case-insensitive) key match regardless of geocoder state; and with no
exact or substring match and the remote geocoder unconfigured, it returns
the fixed Bangalore-center default with the title-cased input echoed as
display name.  `geocode_location` is a total function: no tier raises. -/
theorem C7_geocode_location_tiers :
    (∀ (name : String) (cfg : Bool) (g : GeocodeOutcome) (v : GeoPoint),
        dbLookupExact (pyStrip (pyLower name)) = some v →
        geocode_location cfg g name = v)
    ∧ (∀ (name : String) (g : GeocodeOutcome),
        dbLookupExact (pyStrip (pyLower name)) = none →
        dbLookupPartial (pyStrip (pyLower name)) = none →
        geocode_location false g name = ⟨12.9716, 77.5946, pyTitle name⟩) := by
  constructor
  · intro name cfg g v h
    unfold geocode_location
    rw [h]
  · intro name g h1 h2
    unfold geocode_location
    rw [h1, h2]
    rfl

/-- C7 witness: "MG Road" resolves to its stored entry even with a raising
geocoder; the unknown "Visakhapatnam" with no geocoder resolves to the
fixed default with the input echoed back. -/
theorem C7_witness :
    geocode_location true .raised "MG Road" = ⟨12.9716, 77.5946, "MG Road"⟩
    ∧ geocode_location false .noResult "Visakhapatnam"
        = ⟨12.9716, 77.5946, "Visakhapatnam"⟩ :=
  ⟨C7_geocode_location_tiers.1 "MG Road" true .raised ⟨12.9716, 77.5946, "MG Road"⟩ (by rfl),
   by
    have h := C7_geocode_location_tiers.2 "Visakhapatnam" .noResult (by rfl) (by rfl)
    rw [h]
    rfl⟩

/-- Helper: the haversine `a` term is symmetric in its two points. -/
theorem haversine_a_comm (lat1 lon1 lat2 lon2 : ℝ) :
    haversine_a lat1 lon1 lat2 lon2 = haversine_a lat2 lon2 lat1 lon1 := by
  unfold haversine_a pyRadians
  have h1 : (lat1 - lat2) * (Real.pi / 180) / 2
      = -((lat2 - lat1) * (Real.pi / 180) / 2) := by ring
  have h2 : (lon1 - lon2) * (Real.pi / 180) / 2
      = -((lon2 - lon1) * (Real.pi / 180) / 2) := by ring
  rw [h1, h2, Real.sin_neg, Real.sin_neg]
  ring

/-- C8: the haversine distance of a point to itself is 0; the distance is
symmetric; and it is monotone non-decreasing in the angular separation (the
central angle `c = 2*asin(sqrt(a))`), equivalently in the haversine term
`a` itself. -/
theorem C8_haversine_properties :
    (∀ lat lon : ℝ, haversine_distance_m lat lon lat lon = 0)
    ∧ (∀ lat1 lon1 lat2 lon2 : ℝ,
        haversine_distance_m lat1 lon1 lat2 lon2 = haversine_distance_m lat2 lon2 lat1 lon1)
    ∧ (∀ lat1 lon1 lat2 lon2 lat1' lon1' lat2' lon2' : ℝ,
        haversine_central_angle lat1 lon1 lat2 lon2
            ≤ haversine_central_angle lat1' lon1' lat2' lon2' →
        haversine_distance_m lat1 lon1 lat2 lon2
            ≤ haversine_distance_m lat1' lon1' lat2' lon2')
    ∧ (∀ lat1 lon1 lat2 lon2 lat1' lon1' lat2' lon2' : ℝ,
        haversine_a lat1 lon1 lat2 lon2 ≤ haversine_a lat1' lon1' lat2' lon2' →
        haversine_distance_m lat1 lon1 lat2 lon2
            ≤ haversine_distance_m lat1' lon1' lat2' lon2') := by
  refine ⟨?_, ?_, ?_, ?_⟩
  · intro lat lon
    unfold haversine_distance_m haversine_central_angle haversine_a pyRadians
    simp
  · intro lat1 lon1 lat2 lon2
    unfold haversine_distance_m haversine_central_angle
    rw [haversine_a_comm]
  · intro lat1 lon1 lat2 lon2 lat1' lon1' lat2' lon2' h
    unfold haversine_distance_m
    linarith
  · intro lat1 lon1 lat2 lon2 lat1' lon1' lat2' lon2' h
    unfold haversine_distance_m haversine_central_angle
    have hmono := Real.monotone_arcsin (Real.sqrt_le_sqrt h)
    linarith

/-- C8 witness: the monotonicity clause applied at coinciding pairs. -/
theorem C8_witness :
    haversine_distance_m 0 0 0 0 ≤ haversine_distance_m 0 0 0 0 :=
  C8_haversine_properties.2.2.2 0 0 0 0 0 0 0 0 (le_refl _)

/-- C9: a MapMyIndia credential state with no API key but a client-id and
client-secret counts as configured, places MapMyIndia in the fallback
chain, and yet `MapMyIndiaClient.get_route` returns `None` for every token
outcome without ever issuing a routing request. -/
theorem C9_mmi_oauth_only_configured_but_dead :
    ∀ (c : RoutingConfig),
      c.mapmyindia_api_key = false →
      c.mapmyindia_client_id = true →
      c.mapmyindia_client_secret = true →
      is_provider_configured c RoutingProvider.MAPMYINDIA = true
      ∧ RoutingProvider.MAPMYINDIA ∈ get_fallback_chain c
      ∧ ∀ tokenOutcome : Option String,
          mmi_get_route_step
            ⟨c.mapmyindia_api_key, c.mapmyindia_client_id, c.mapmyindia_client_secret⟩
            tokenOutcome = .returnedNone := by
  intro c h1 h2 h3
  have hconf : is_provider_configured c RoutingProvider.MAPMYINDIA = true := by
    simp [is_provider_configured, h1, h2, h3]
  refine ⟨hconf, configured_mem_chain c _ hconf, ?_⟩
  intro t
  rw [h1, h2, h3]
  cases t <;> rfl

/-- C9 witness: the concrete OAuth-only credential state. -/
theorem C9_witness :
    mmi_get_route_step ⟨false, true, true⟩ (some "token") = .returnedNone :=
  (C9_mmi_oauth_only_configured_but_dead ⟨false, false, false, true, true, .OSRM⟩
    rfl rfl rfl).2.2 (some "token")

/-- C10 (amended): after a provider returns a route, `suggest_text_route`
takes `distance_meters` / `duration_seconds` from the provider's route
fields when they are present; a field absent from the provider route falls
back to the event-multiplied haversine estimate (`route.get("distance",
distance_m)`), as does a falsy or empty-routes response. -/
theorem C10_provider_values_override :
    (∀ (est d : ℚ) (route : ProviderRoute) (rest : List ProviderRoute),
        route.distance = some d →
        suggest_final_distance est (some (route :: rest)) = d)
    ∧ (∀ (est : ℚ) (route : ProviderRoute) (rest : List ProviderRoute),
        route.distance = none →
        suggest_final_distance est (some (route :: rest)) = est)
    ∧ (∀ est : ℚ, suggest_final_distance est none = est)
    ∧ (∀ est : ℚ, suggest_final_distance est (some []) = est)
    ∧ (∀ (est d : ℚ) (route : ProviderRoute) (rest : List ProviderRoute),
        route.duration = some d →
        suggest_final_duration est (some (route :: rest)) = d)
    ∧ (∀ (est : ℚ) (route : ProviderRoute) (rest : List ProviderRoute),
        route.duration = none →
        suggest_final_duration est (some (route :: rest)) = est) := by
  refine ⟨?_, ?_, fun est => rfl, fun est => rfl, ?_, ?_⟩
  · intro est d route rest h
    show route.distance.getD est = d
    rw [h]
    rfl
  · intro est route rest h
    show route.distance.getD est = est
    rw [h]
    rfl
  · intro est d route rest h
    show route.duration.getD est = d
    rw [h]
    rfl
  · intro est route rest h
    show route.duration.getD est = est
    rw [h]
    rfl

/-- C10 witness: a provider route carrying both fields overrides the
estimate. -/
theorem C10_witness :
    suggest_final_distance 999 (some [⟨some 5000, some 600, "g"⟩]) = 5000 :=
  C10_provider_values_override.1 999 5000 ⟨some 5000, some 600, "g"⟩ [] rfl

/-- C10 counterexample: with event "rally" the estimate is multiplied by
1.2; a provider route that omits its `distance` field is returned, yet the
final distance equals the event-multiplied estimate, not a provider value,
and differs from the unmultiplied base. -/
theorem C10_counterexample :
    suggest_apply_event 1000 "rally" = 1000 * (12/10)
    ∧ suggest_final_distance (suggest_apply_event 1000 "rally")
        (some [⟨none, none, "geom"⟩]) = 1000 * (12/10)
    ∧ ¬ ((1000 : ℚ) * (12/10) = 1000) :=
  ⟨by rfl, by rfl, by norm_num⟩

end Margsathi
